import Mathlib

/-!
Verification of the PersianasMasterCUU quoting app.

The quote screen (frontend `index.tsx`, full-featured variant with fascia and
installation add-ons) is embedded shallowly: JavaScript numbers become `ℚ`
(the embedding carries exact rational arithmetic; IEEE-754 specials such as
`NaN` and `Infinity` are represented through `Option`, matching the code's
`isNaN` checks), form text fields become `String`, and `parseFloat` becomes
an explicit prefix parser `jsParseFloat : String → Option ℚ`.
The backend service (`server.py`) is not part of the sources; the one backend
operation a claim needs (`seed`) is modelled from the specification and marked
as such in its doc comment.
-/

/-- The whitespace characters skipped by `parseFloat` before the number. -/
def isJsSpace (c : Char) : Bool :=
  c == ' ' || c == '\t' || c == '\n' || c == '\r'

/-- Numeric value of a decimal digit character. -/
def digitVal (c : Char) : Nat := c.toNat - '0'.toNat

/-- Value of a digit string read in base 10. -/
def natOfDigits (ds : List Char) : Nat :=
  ds.foldl (fun n c => 10 * n + digitVal c) 0

/-- Exponent part of a JavaScript float literal: optional sign then digits.
`parseFloat` treats a dangling `e` (no digits after it) as exponent 0,
keeping the mantissa parsed so far. -/
def jsExponent (cs : List Char) : Int :=
  let signed : Int × List Char :=
    match cs with
    | '-' :: rest => (-1, rest)
    | '+' :: rest => (1, rest)
    | _ => (1, cs)
  let ds := signed.2.takeWhile Char.isDigit
  if ds.isEmpty then 0 else signed.1 * (natOfDigits ds : Int)

/-- The discrete content of a JavaScript float literal: sign, integer part,
fraction digits (as a value and a digit count) and decimal exponent. -/
structure JsNumParts where
  neg : Bool
  intVal : Nat
  fracVal : Nat
  fracLen : Nat
  exp : Int
deriving DecidableEq

/-- The scanning phase of JavaScript `parseFloat`: skip leading whitespace,
read an optional sign, integer digits, an optional fraction and an optional
decimal exponent, ignoring any trailing garbage.  Returns `none` exactly when
`parseFloat` returns `NaN` (no digit could be read). -/
def jsSplitNumber (s : String) : Option JsNumParts :=
  let cs := s.data.dropWhile isJsSpace
  let signed : Bool × List Char :=
    match cs with
    | '-' :: rest => (true, rest)
    | '+' :: rest => (false, rest)
    | _ => (false, cs)
  let intDigits := signed.2.takeWhile Char.isDigit
  let afterInt := signed.2.dropWhile Char.isDigit
  let fracAndRest : List Char × List Char :=
    match afterInt with
    | '.' :: rest => (rest.takeWhile Char.isDigit, rest.dropWhile Char.isDigit)
    | _ => ([], afterInt)
  if intDigits.isEmpty && fracAndRest.1.isEmpty then none
  else
    let e : Int :=
      match fracAndRest.2 with
      | 'e' :: rest => jsExponent rest
      | 'E' :: rest => jsExponent rest
      | _ => 0
    some ⟨signed.1, natOfDigits intDigits, natOfDigits fracAndRest.1,
      fracAndRest.1.length, e⟩

/-- The numeric value of a scanned float literal. -/
def ratOfParts (p : JsNumParts) : ℚ :=
  (if p.neg then -1 else 1) *
    ((p.intVal : ℚ) + (p.fracVal : ℚ) / (10 : ℚ) ^ p.fracLen) *
    (10 : ℚ) ^ p.exp

/-- Embedding of JavaScript `parseFloat`, as scanning followed by evaluation.
`Option ℚ` stands for a JavaScript number that may be `NaN`: `none` exactly
when `parseFloat` returns `NaN`.  (`Infinity` literals are outside the model;
the app's numeric inputs are finite decimals.) -/
def jsParseFloat (s : String) : Option ℚ :=
  (jsSplitNumber s).map ratOfParts

/-- Embedding of the idiom `parseFloat(s) || 0`: a `NaN` result (and only a
falsy result, i.e. `NaN` or `0` itself) is replaced by `0`. -/
def parseFloatOr0 (s : String) : ℚ := (jsParseFloat s).getD 0

/-- A selectable color of a product (`interface ProductColor`). -/
structure ProductColor where
  name : String
  code : Option String
deriving DecidableEq

/-- A catalog product (`interface Product`). -/
structure Product where
  id : String
  name : String
  description : String
  distributor_price : ℚ
  client_price : ℚ
  colors : List ProductColor
deriving DecidableEq

/-- A line item of the quote being built (`interface QuoteItem`). -/
structure QuoteItem where
  product_id : String
  product_name : String
  color : Option String
  width : ℚ
  height : ℚ
  square_meters : ℚ
  unit_price : ℚ
  subtotal : ℚ
  chain_orientation : String
  fascia_type : String
  fascia_color : String
  fascia_price : ℚ
  installation_price : ℚ
deriving DecidableEq

/-- The singleton business configuration (`interface BusinessConfig`). -/
structure BusinessConfig where
  business_name : String
  logo_base64 : Option String
deriving DecidableEq

/-- The text-field and picker state of the quote form. -/
structure FormState where
  selectedProduct : Option Product
  colorText : String
  width : String
  height : String
  chainOrientation : String
  fasciaType : String
  fasciaColor : String
  fasciaPrice : String
  installationPrice : String
deriving DecidableEq

/-- The failure kinds the quote screen surfaces as alerts.
`noProductSelected` is the alert `Selecciona un producto`;
`invalidMeasurement` is the `ValidationError` alert `Ingresa medidas válidas`;
`emptyQuote` is the `EmptyQuoteError` alert
`Agrega al menos un producto a la cotización`. -/
inductive QuoteError where
  | noProductSelected
  | invalidMeasurement
  | emptyQuote
deriving DecidableEq

/-- `getPrice`: the unit price for the active perspective
(`isDistributor ? product.distributor_price : product.client_price`). -/
def getPrice (isDistributor : Bool) (product : Product) : ℚ :=
  if isDistributor then product.distributor_price else product.client_price

/-- `client_type` as written into the quote payload
(`isDistributor ? 'distributor' : 'client'`). -/
def clientType (isDistributor : Bool) : String :=
  if isDistributor then "distributor" else "client"

/-- `calculateSquareMeters`: the live area display,
`(parseFloat(width) || 0) * (parseFloat(height) || 0)`. -/
def calculateSquareMeters (width height : String) : ℚ :=
  parseFloatOr0 width * parseFloatOr0 height

/-- `getFasciaPriceValue`: `parseFloat(fasciaPrice) || 0`. -/
def getFasciaPriceValue (fasciaPrice : String) : ℚ := parseFloatOr0 fasciaPrice

/-- `getInstallationPriceValue`: `parseFloat(installationPrice) || 0`. -/
def getInstallationPriceValue (installationPrice : String) : ℚ :=
  parseFloatOr0 installationPrice

/-- The `newItem` object literal built inside `addItemToQuote`, for measured
width `w` and height `h` already parsed from the form. -/
def mkQuoteItem (isDistributor : Bool) (form : FormState)
    (selectedProduct : Product) (w h : ℚ) : QuoteItem :=
  let sqm := w * h
  let unitPrice := getPrice isDistributor selectedProduct
  let productSubtotal := sqm * unitPrice
  let fasciaCost := getFasciaPriceValue form.fasciaPrice
  let installationCost := getInstallationPriceValue form.installationPrice
  let subtotal := productSubtotal + fasciaCost + installationCost
  { product_id := selectedProduct.id
    product_name := selectedProduct.name
    color := if form.colorText.trim = "" then none else some form.colorText.trim
    width := w
    height := h
    square_meters := sqm
    unit_price := unitPrice
    subtotal := subtotal
    chain_orientation := form.chainOrientation
    fascia_type := form.fasciaType
    fascia_color := form.fasciaColor
    fascia_price := fasciaCost
    installation_price := installationCost }

/-- `addItemToQuote`: validate the selection and measurements, then append the
priced line item to `quoteItems` (`setQuoteItems([...quoteItems, newItem])`).
The guard is the source's
`if (isNaN(w) || isNaN(h) || w <= 0 || h <= 0)`; on failure the alert fires
and the function returns without touching the list. -/
def addItemToQuote (isDistributor : Bool) (form : FormState)
    (quoteItems : List QuoteItem) : Except QuoteError (List QuoteItem) :=
  match form.selectedProduct with
  | none => .error .noProductSelected
  | some selectedProduct =>
    match jsParseFloat form.width, jsParseFloat form.height with
    | some w, some h =>
      if w ≤ 0 ∨ h ≤ 0 then .error .invalidMeasurement
      else .ok (quoteItems ++ [mkQuoteItem isDistributor form selectedProduct w h])
    | _, _ => .error .invalidMeasurement

/-- `newItems.splice(index, 1)` on a copy of the list: drop the element at
`index` if there is one, keeping everything else in place.  (The screen only
calls this with the index of a rendered row.) -/
def spliceRemoveOne (quoteItems : List QuoteItem) (index : Nat) : List QuoteItem :=
  match quoteItems, index with
  | [], _ => []
  | _ :: rest, 0 => rest
  | item :: rest, n + 1 => item :: spliceRemoveOne rest n

/-- `removeItem`: copy the list and splice out one element at `index`. -/
def removeItem (index : Nat) (quoteItems : List QuoteItem) : List QuoteItem :=
  spliceRemoveOne quoteItems index

/-- `getTotal`: `quoteItems.reduce((sum, item) => sum + item.subtotal, 0)`. -/
def getTotal (quoteItems : List QuoteItem) : ℚ :=
  quoteItems.foldl (fun sum item => sum + item.subtotal) 0

/-- One line of the `items` array in the quote payload sent to
`POST /api/quotes`. -/
structure QuoteItemRequest where
  product_id : String
  product_name : String
  color : Option String
  width : ℚ
  height : ℚ
  unit_price : ℚ
  chain_orientation : String
  fascia_type : String
  fascia_color : String
  fascia_price : ℚ
  installation_price : ℚ
deriving DecidableEq

/-- The projection `quoteItems.map(item => ({...}))` used to build the
payload. -/
def toQuoteItemRequest (item : QuoteItem) : QuoteItemRequest :=
  { product_id := item.product_id
    product_name := item.product_name
    color := item.color
    width := item.width
    height := item.height
    unit_price := item.unit_price
    chain_orientation := item.chain_orientation
    fascia_type := item.fascia_type
    fascia_color := item.fascia_color
    fascia_price := item.fascia_price
    installation_price := item.installation_price }

/-- The `quoteData` body of `POST /api/quotes`. -/
structure QuoteRequest where
  items : List QuoteItemRequest
  client_type : String
  client_name : Option String
  client_phone : Option String
  client_email : Option String
  notes : Option String
deriving DecidableEq

/-- The idiom `s || null` on a text field: the empty string becomes `null`. -/
def strOrNone (s : String) : Option String := if s = "" then none else some s

/-- `saveAndExportPDF` up to its one store write: with an empty item list it
alerts and returns before any request is built; otherwise it builds the
`quoteData` payload that is POSTed to the backend.  An `.error` result
therefore means no persistence request was issued. -/
def saveAndExportPDF (isDistributor : Bool) (quoteItems : List QuoteItem)
    (clientName clientPhone clientEmail notes : String) :
    Except QuoteError QuoteRequest :=
  if quoteItems.length = 0 then .error .emptyQuote
  else
    .ok { items := quoteItems.map toQuoteItemRequest
          client_type := clientType isDistributor
          client_name := strOrNone clientName
          client_phone := strOrNone clientPhone
          client_email := strOrNone clientEmail
          notes := strOrNone notes }

/-- Modelled from the spec: the fixed initial catalog installed by the
backend `seed()` operation (the backend `server.py` is not among the sources;
only its callers are).  The testing log records that it seeds five sample
roller-blind products with distributor and client prices; the concrete
entries are placeholders for that fixed catalog — the claims depend only on
the catalog being fixed and non-empty. -/
def initialCatalog : List Product :=
  [⟨"seed-1", "Persiana Screen 3%", "Tela screen", 45, 60, []⟩,
   ⟨"seed-2", "Persiana Screen 5%", "Tela screen", 40, 55, []⟩,
   ⟨"seed-3", "Persiana Blackout", "Tela blackout", 50, 68, []⟩,
   ⟨"seed-4", "Persiana Sheer", "Tela sheer", 55, 75, []⟩,
   ⟨"seed-5", "Persiana Sunscreen", "Tela sunscreen", 48, 65, []⟩]

/-- Modelled from the spec: the `seed()` endpoint populates `initialCatalog`
when the catalog is empty and is a no-op when products already exist. -/
def seed (catalog : List Product) : List Product :=
  if catalog.isEmpty then initialCatalog else catalog

/-- The product-fetching convenience shared by the quote and products screens
(`fetchData` / `fetchProducts`): list the catalog and, only when the returned
list is empty, POST the seed endpoint and list again.  Returns the list the
screen displays together with whether the seed endpoint was invoked. -/
def fetchProducts (backendProducts : List Product) : List Product × Bool :=
  if backendProducts.length = 0 then (seed backendProducts, true)
  else (backendProducts, false)

/-- The screen state the claims depend on: the loaded catalog, the loaded
business configuration and the quote being built. -/
structure AppState where
  products : List Product
  businessConfig : Option BusinessConfig
  quoteItems : List QuoteItem
deriving DecidableEq

/-- `fetchData` on the quote screen: refresh the catalog (seeding it when the
backend returns an empty list) and the business configuration.  Every catalog
change visible to the quote screen — a price edit, a product deletion, a
seed, a reload — reaches it through this refresh. -/
def fetchData (backendProducts : List Product)
    (backendConfig : Option BusinessConfig) (s : AppState) : AppState :=
  { s with
    products := (fetchProducts backendProducts).1
    businessConfig := backendConfig }

/-- A catalog-affecting event after which the quote screen refreshes. -/
inductive CatalogOp where
  | refresh (backendProducts : List Product)
      (backendConfig : Option BusinessConfig)
deriving DecidableEq

def applyCatalogOp (s : AppState) : CatalogOp → AppState
  | .refresh ps cfg => fetchData ps cfg s

def applyCatalogOps (ops : List CatalogOp) (s : AppState) : AppState :=
  ops.foldl applyCatalogOp s

/-- An edit of the quote under construction: adding an item through the form,
removing the item of a rendered row, or clearing the quote. -/
inductive QuoteOp where
  | add (isDistributor : Bool) (form : FormState)
  | remove (index : Nat)
  | clear
deriving DecidableEq

/-- One quote edit as the screen performs it: a rejected add fires an alert
and leaves the list unchanged. -/
def applyQuoteOp (quoteItems : List QuoteItem) : QuoteOp → List QuoteItem
  | .add d form =>
    match addItemToQuote d form quoteItems with
    | .ok newItems => newItems
    | .error _ => quoteItems
  | .remove index => removeItem index quoteItems
  | .clear => []

def applyQuoteOps (ops : List QuoteOp) (quoteItems : List QuoteItem) :
    List QuoteItem :=
  ops.foldl applyQuoteOp quoteItems

/-- The sample product of the spec's distributor scenario
(`distributor_price = 45.00`, `client_price = 60.00`). -/
def exProduct : Product :=
  { id := "p1"
    name := "Persiana Screen 3%"
    description := "Tela screen"
    distributor_price := 45
    client_price := 60
    colors := [] }

/-- The form of the spec's distributor scenario: width `1.20`, height `1.50`,
no add-ons. -/
def exForm : FormState :=
  { selectedProduct := some exProduct
    colorText := ""
    width := "1.20"
    height := "1.50"
    chainOrientation := "Derecha"
    fasciaType := "Redonda"
    fasciaColor := "Blanca"
    fasciaPrice := ""
    installationPrice := "" }

/-- A form carrying a negative fascia add-on with valid measurements. -/
def exFormNeg : FormState :=
  { exForm with width := "1", height := "1", fasciaPrice := "-50" }

theorem jsParseFloat_of_split (s : String) (p : JsNumParts) (q : ℚ)
    (h : jsSplitNumber s = some p) (hq : ratOfParts p = q) :
    jsParseFloat s = some q := by
  rw [jsParseFloat, h, Option.map_some', hq]

theorem jsParseFloat_of_split_none (s : String)
    (h : jsSplitNumber s = none) : jsParseFloat s = none := by
  rw [jsParseFloat, h, Option.map_none']

theorem jsParseFloat_width_ex : jsParseFloat "1.20" = some (6/5) :=
  jsParseFloat_of_split _ ⟨false, 1, 20, 2, 0⟩ _ (by decide)
    (by norm_num [ratOfParts])

theorem jsParseFloat_height_ex : jsParseFloat "1.50" = some (3/2) :=
  jsParseFloat_of_split _ ⟨false, 1, 50, 2, 0⟩ _ (by decide)
    (by norm_num [ratOfParts])

theorem jsParseFloat_one : jsParseFloat "1" = some 1 :=
  jsParseFloat_of_split _ ⟨false, 1, 0, 0, 0⟩ _ (by decide)
    (by norm_num [ratOfParts])

theorem jsParseFloat_two : jsParseFloat "2" = some 2 :=
  jsParseFloat_of_split _ ⟨false, 2, 0, 0, 0⟩ _ (by decide)
    (by norm_num [ratOfParts])

theorem jsParseFloat_empty : jsParseFloat "" = none :=
  jsParseFloat_of_split_none _ (by decide)

theorem jsParseFloat_abc : jsParseFloat "abc" = none :=
  jsParseFloat_of_split_none _ (by decide)

theorem jsParseFloat_neg50 : jsParseFloat "-50" = some (-50) :=
  jsParseFloat_of_split _ ⟨true, 50, 0, 0, 0⟩ _ (by decide)
    (by norm_num [ratOfParts])

theorem jsParseFloat_sci : jsParseFloat " 2.5e2x" = some 250 :=
  jsParseFloat_of_split _ ⟨false, 2, 5, 1, 2⟩ _ (by decide)
    (by norm_num [ratOfParts])

theorem parseFloatOr0_of_none (s : String) (h : jsParseFloat s = none) :
    parseFloatOr0 s = 0 := by
  rw [parseFloatOr0, h, Option.getD_none]

theorem parseFloatOr0_of_some (s : String) (q : ℚ)
    (h : jsParseFloat s = some q) : parseFloatOr0 s = q := by
  rw [parseFloatOr0, h, Option.getD_some]

theorem addItemToQuote_eq_ok (d : Bool) (form : FormState)
    (items : List QuoteItem) (prod : Product) (w h : ℚ)
    (hp : form.selectedProduct = some prod)
    (hw : jsParseFloat form.width = some w)
    (hh : jsParseFloat form.height = some h)
    (hwpos : 0 < w) (hhpos : 0 < h) :
    addItemToQuote d form items =
      .ok (items ++ [mkQuoteItem d form prod w h]) := by
  simp only [addItemToQuote, hp, hw, hh]
  rw [if_neg]
  push_neg
  exact ⟨hwpos, hhpos⟩

theorem addItemToQuote_ok_append (d : Bool) (form : FormState)
    (items newItems : List QuoteItem)
    (hok : addItemToQuote d form items = .ok newItems) :
    ∃ item, newItems = items ++ [item] := by
  rw [addItemToQuote] at hok
  cases hps : form.selectedProduct with
  | none => rw [hps] at hok; exact absurd hok (by simp)
  | some prod =>
    rw [hps] at hok
    cases hw : jsParseFloat form.width with
    | none => rw [hw] at hok; simp at hok
    | some w =>
      cases hh : jsParseFloat form.height with
      | none => rw [hw, hh] at hok; simp at hok
      | some h =>
        rw [hw, hh] at hok
        by_cases hle : w ≤ 0 ∨ h ≤ 0
        · simp [hle] at hok
        · simp [hle] at hok
          exact ⟨mkQuoteItem d form prod w h, hok.symm⟩

theorem getTotal_foldl (quoteItems : List QuoteItem) (a : ℚ) :
    quoteItems.foldl (fun sum item => sum + item.subtotal) a =
      a + (quoteItems.map (fun item => item.subtotal)).sum := by
  induction quoteItems generalizing a with
  | nil => simp
  | cons x xs ih => simp [List.foldl_cons, ih]; ring

theorem getTotal_eq_sum (quoteItems : List QuoteItem) :
    getTotal quoteItems = (quoteItems.map (fun item => item.subtotal)).sum := by
  rw [getTotal, getTotal_foldl, zero_add]

theorem spliceRemoveOne_eq (items : List QuoteItem) (i : Nat) :
    spliceRemoveOne items i = items.take i ++ items.drop (i + 1) := by
  induction items generalizing i with
  | nil => cases i <;> rfl
  | cons x xs ih =>
    cases i with
    | zero => rfl
    | succ n => simp [spliceRemoveOne, ih]

theorem applyCatalogOps_quoteItems (ops : List CatalogOp) (s : AppState) :
    (applyCatalogOps ops s).quoteItems = s.quoteItems := by
  induction ops generalizing s with
  | nil => rfl
  | cons op rest ih =>
    rw [applyCatalogOps, List.foldl_cons, ← applyCatalogOps, ih]
    cases op with
    | refresh ps cfg => rfl

/-- Claim C1: for every line item created with parsed width `w > 0`, height
`h > 0`, the unit price of the active perspective and the fascia and
installation add-ons, the stored `square_meters` equals `w * h` at full
precision (the embedding carries exact rationals; only presentation rounds)
and the stored `subtotal` equals `w * h * unit_price + fascia_price +
installation_price`. -/
theorem c1_line_item_formula (d : Bool) (form : FormState)
    (items : List QuoteItem) (prod : Product) (w h : ℚ)
    (hp : form.selectedProduct = some prod)
    (hw : jsParseFloat form.width = some w)
    (hh : jsParseFloat form.height = some h)
    (hwpos : 0 < w) (hhpos : 0 < h) :
    addItemToQuote d form items =
      .ok (items ++ [mkQuoteItem d form prod w h]) ∧
    (mkQuoteItem d form prod w h).square_meters = w * h ∧
    (mkQuoteItem d form prod w h).subtotal =
      w * h * getPrice d prod + getFasciaPriceValue form.fasciaPrice +
        getInstallationPriceValue form.installationPrice :=
  ⟨addItemToQuote_eq_ok d form items prod w h hp hw hh hwpos hhpos, rfl, rfl⟩

/-- Witness for C1 at the concrete scenario input: width `1.20`, height
`1.50`, distributor perspective, no add-ons. -/
theorem c1_line_item_formula_witness :
    addItemToQuote true exForm [] =
      .ok ([] ++ [mkQuoteItem true exForm exProduct (6/5) (3/2)]) ∧
    (mkQuoteItem true exForm exProduct (6/5) (3/2)).square_meters =
      (6/5) * (3/2) ∧
    (mkQuoteItem true exForm exProduct (6/5) (3/2)).subtotal =
      (6/5) * (3/2) * getPrice true exProduct +
        getFasciaPriceValue exForm.fasciaPrice +
        getInstallationPriceValue exForm.installationPrice :=
  c1_line_item_formula true exForm [] exProduct (6/5) (3/2) rfl
    jsParseFloat_width_ex jsParseFloat_height_ex (by norm_num) (by norm_num)

/-- Claim C2 counterexample: a supplied negative add-on does NOT make the
operation fail.  With valid measurements `1 × 1` and fascia add-on `-50` the
parsed add-on is negative, yet `addItemToQuote` succeeds and appends a line
item whose `fascia_price` is `-50`. -/
theorem c2_counterexample_negative_addon :
    getFasciaPriceValue "-50" < 0 ∧
    addItemToQuote true exFormNeg [] =
      .ok [mkQuoteItem true exFormNeg exProduct 1 1] ∧
    (mkQuoteItem true exFormNeg exProduct 1 1).fascia_price = -50 := by
  refine ⟨?_, ?_, ?_⟩
  · rw [getFasciaPriceValue, parseFloatOr0_of_some _ _ jsParseFloat_neg50]
    norm_num
  · simpa using
      addItemToQuote_eq_ok true exFormNeg [] exProduct 1 1 rfl
        jsParseFloat_one jsParseFloat_one one_pos one_pos
  · show getFasciaPriceValue exFormNeg.fasciaPrice = -50
    rw [show exFormNeg.fasciaPrice = "-50" from rfl, getFasciaPriceValue,
      parseFloatOr0_of_some _ _ jsParseFloat_neg50]

/-- Claim C2 (amended): the operation fails with a `ValidationError` and
performs no computation exactly when no product is selected or a measurement
is missing, unparseable or non-positive; supplied add-on values — including
negative ones — are never validated and are accepted into the item. -/
theorem c2_validation_amended (d : Bool) (form : FormState)
    (items : List QuoteItem) :
    (∃ e, addItemToQuote d form items = .error e) ↔
      (form.selectedProduct = none ∨
       jsParseFloat form.width = none ∨
       jsParseFloat form.height = none ∨
       (∃ w, jsParseFloat form.width = some w ∧ w ≤ 0) ∨
       (∃ h, jsParseFloat form.height = some h ∧ h ≤ 0)) := by
  cases hps : form.selectedProduct with
  | none => simp [addItemToQuote, hps]
  | some prod =>
    cases hw : jsParseFloat form.width with
    | none => simp [addItemToQuote, hps, hw]
    | some w =>
      cases hh : jsParseFloat form.height with
      | none => simp [addItemToQuote, hps, hw, hh]
      | some h =>
        by_cases hle : w ≤ 0 ∨ h ≤ 0
        · cases hle with
          | inl hw0 => simp [addItemToQuote, hps, hw, hh, hw0]
          | inr hh0 => simp [addItemToQuote, hps, hw, hh, hh0]
        · push_neg at hle
          simp [addItemToQuote, hps, hw, hh, hle.1.not_le, hle.2.not_le]

/-- Claim C3: after any sequence of quote edits (adds, removes, clears, in
any order) starting from the empty quote, `getTotal` equals the sum of the
subtotals of the line items currently in the quote; in particular the empty
quote totals `0`. -/
theorem c3_total_invariant :
    (∀ ops : List QuoteOp,
       getTotal (applyQuoteOps ops []) =
         ((applyQuoteOps ops []).map (fun item => item.subtotal)).sum) ∧
    getTotal ([] : List QuoteItem) = 0 :=
  ⟨fun _ => getTotal_eq_sum _, rfl⟩

/-- Claim C4: at width `1.20`, height `1.50`, distributor perspective with
`distributor_price = 45.00` and no add-ons, the computed `square_meters` is
`1.80 = 9/5` and the computed `subtotal` is `81.00`; its distance from
`(w * h) * p` is within the `1e-9` relative tolerance (it is exactly `0` in
the rational embedding). -/
theorem c4_scenario_distributor :
    addItemToQuote true exForm [] =
      .ok [mkQuoteItem true exForm exProduct (6/5) (3/2)] ∧
    (mkQuoteItem true exForm exProduct (6/5) (3/2)).square_meters = 9/5 ∧
    (mkQuoteItem true exForm exProduct (6/5) (3/2)).subtotal = 81 ∧
    |(mkQuoteItem true exForm exProduct (6/5) (3/2)).subtotal -
        (6/5) * (3/2) * 45| ≤ 81 / 1000000000 := by
  have hsub : (mkQuoteItem true exForm exProduct (6/5) (3/2)).subtotal = 81 := by
    show (6/5 : ℚ) * (3/2) * getPrice true exProduct +
        getFasciaPriceValue exForm.fasciaPrice +
        getInstallationPriceValue exForm.installationPrice = 81
    rw [show exForm.fasciaPrice = "" from rfl,
      show exForm.installationPrice = "" from rfl, getFasciaPriceValue,
      getInstallationPriceValue, parseFloatOr0_of_none _ jsParseFloat_empty]
    norm_num [getPrice, exProduct]
  refine ⟨?_, ?_, hsub, ?_⟩
  · simpa using
      addItemToQuote_eq_ok true exForm [] exProduct (6/5) (3/2) rfl
        jsParseFloat_width_ex jsParseFloat_height_ex (by norm_num) (by norm_num)
  · show (6/5 : ℚ) * (3/2) = 9/5
    norm_num
  · rw [hsub]
    norm_num

/-- Claim C5: the unit price stored into a created line item is the product's
`distributor_price` exactly when the recorded `client_type` is
`"distributor"`, and the product's `client_price` otherwise. -/
theorem c5_price_perspective (d : Bool) (form : FormState)
    (items : List QuoteItem) (prod : Product) (w h : ℚ)
    (hp : form.selectedProduct = some prod)
    (hw : jsParseFloat form.width = some w)
    (hh : jsParseFloat form.height = some h)
    (hwpos : 0 < w) (hhpos : 0 < h) :
    addItemToQuote d form items =
      .ok (items ++ [mkQuoteItem d form prod w h]) ∧
    (mkQuoteItem d form prod w h).unit_price =
      (if clientType d = "distributor" then prod.distributor_price
       else prod.client_price) := by
  refine ⟨addItemToQuote_eq_ok d form items prod w h hp hw hh hwpos hhpos, ?_⟩
  show getPrice d prod = _
  cases d <;> simp [getPrice, clientType]

/-- Witness for C5 at the concrete scenario input, client perspective. -/
theorem c5_price_perspective_witness :
    addItemToQuote false exForm [] =
      .ok ([] ++ [mkQuoteItem false exForm exProduct (6/5) (3/2)]) ∧
    (mkQuoteItem false exForm exProduct (6/5) (3/2)).unit_price =
      (if clientType false = "distributor" then exProduct.distributor_price
       else exProduct.client_price) :=
  c5_price_perspective false exForm [] exProduct (6/5) (3/2) rfl
    jsParseFloat_width_ex jsParseFloat_height_ex (by norm_num) (by norm_num)

/-- Claim C6: saving with an empty item list fails with the empty-quote error
before any payload is built, so no persistence request is issued and the
stored state is untouched. -/
theorem c6_empty_quote_error (d : Bool)
    (clientName clientPhone clientEmail notes : String) :
    saveAndExportPDF d [] clientName clientPhone clientEmail notes =
      .error .emptyQuote := rfl

/-- Claim C7: line-item prices are snapshots.  After any sequence of catalog
refreshes (price edits, product deletions and reloads all reach the quote
screen as a refresh), the quote's line items — and in particular each item's
`product_name`, `unit_price` and `subtotal` — are unchanged; only the catalog
and configuration state differ. -/
theorem c7_snapshot_frame (s : AppState) (ops : List CatalogOp) :
    (applyCatalogOps ops s).quoteItems = s.quoteItems ∧
    (applyCatalogOps ops s).quoteItems.map
        (fun item => (item.product_name, item.unit_price, item.subtotal)) =
      s.quoteItems.map
        (fun item => (item.product_name, item.unit_price, item.subtotal)) := by
  rw [applyCatalogOps_quoteItems]
  exact ⟨rfl, rfl⟩

/-- Claim C8: adding a line item appends it at the end of the sequence, and
removing the item at a rendered index `i` deletes exactly that item while
preserving the relative order of the remaining items (the list decomposes as
`take i ++ item :: drop (i+1)` and removal yields `take i ++ drop (i+1)`). -/
theorem c8_order_preservation :
    (∀ (d : Bool) (form : FormState) (items newItems : List QuoteItem),
       addItemToQuote d form items = .ok newItems →
       ∃ item, newItems = items ++ [item]) ∧
    (∀ (items : List QuoteItem) (i : Nat) (hi : i < items.length),
       removeItem i items = items.take i ++ items.drop (i + 1) ∧
       items = items.take i ++ items[i] :: items.drop (i + 1)) := by
  constructor
  · exact fun d form items newItems hok =>
      addItemToQuote_ok_append d form items newItems hok
  · intro items i hi
    constructor
    · exact spliceRemoveOne_eq items i
    · conv_lhs => rw [← List.take_append_drop i items]
      rw [List.drop_eq_getElem_cons hi]

/-- Witness for C8: removing index `1` from a three-item quote keeps the
first and third items in order. -/
theorem c8_order_preservation_witness :
    removeItem 1 [mkQuoteItem true exForm exProduct 1 1,
        mkQuoteItem true exForm exProduct 2 2,
        mkQuoteItem true exForm exProduct 3 3] =
      [mkQuoteItem true exForm exProduct 1 1,
        mkQuoteItem true exForm exProduct 3 3] := by
  have h :=
    (c8_order_preservation.2
      [mkQuoteItem true exForm exProduct 1 1,
        mkQuoteItem true exForm exProduct 2 2,
        mkQuoteItem true exForm exProduct 3 3] 1 (by simp)).1
  simpa using h

/-- Claim C9: `seed` is idempotent — it installs the fixed initial catalog
only on an empty catalog and is a no-op when products already exist, so a
second call never duplicates entries; and the client-side convenience invokes
the seed endpoint only when the fetched product list is empty. -/
theorem c9_seed_idempotent :
    (∀ catalog : List Product, seed (seed catalog) = seed catalog) ∧
    (∀ catalog : List Product, catalog ≠ [] → seed catalog = catalog) ∧
    (∀ backendProducts : List Product,
       (fetchProducts backendProducts).2 = true → backendProducts = []) := by
  refine ⟨?_, ?_, ?_⟩
  · intro c
    by_cases hc : c.isEmpty
    · have h1 : seed c = initialCatalog := by rw [seed, if_pos hc]
      rw [h1, seed, if_neg (by simp [initialCatalog])]
    · have h1 : seed c = c := by rw [seed, if_neg hc]
      rw [h1]
      exact h1
  · intro c hc
    rw [seed, if_neg (by simpa using hc)]
  · intro ps hps
    by_cases h : ps.length = 0
    · exact List.length_eq_zero.mp h
    · rw [fetchProducts, if_neg h] at hps
      simp at hps

/-- Witness for C9: seeding a one-product catalog is a no-op. -/
theorem c9_seed_idempotent_witness : seed [exProduct] = [exProduct] :=
  c9_seed_idempotent.2.1 [exProduct] (by simp)

/-- Claim C10: the measurement and add-on parsers are total.  An empty or
unparseable width or height makes the live `calculateSquareMeters` display
`0`, and an empty or unparseable fascia or installation field contributes `0`
to the subtotal. -/
theorem c10_parsers_total :
    jsParseFloat "" = none ∧
    (∀ width height : String, jsParseFloat width = none →
       calculateSquareMeters width height = 0) ∧
    (∀ width height : String, jsParseFloat height = none →
       calculateSquareMeters width height = 0) ∧
    (∀ s : String, jsParseFloat s = none →
       getFasciaPriceValue s = 0 ∧ getInstallationPriceValue s = 0) ∧
    (∀ (d : Bool) (form : FormState) (prod : Product) (w h : ℚ),
       jsParseFloat form.fasciaPrice = none →
       jsParseFloat form.installationPrice = none →
       (mkQuoteItem d form prod w h).subtotal = w * h * getPrice d prod) := by
  refine ⟨jsParseFloat_empty, ?_, ?_, ?_, ?_⟩
  · intro width height hw
    rw [calculateSquareMeters, parseFloatOr0_of_none _ hw, zero_mul]
  · intro width height hh
    rw [calculateSquareMeters, parseFloatOr0_of_none _ hh, mul_zero]
  · intro s hs
    rw [getFasciaPriceValue, getInstallationPriceValue,
      parseFloatOr0_of_none _ hs]
    exact ⟨rfl, rfl⟩
  · intro d form prod w h hf hi
    show w * h * getPrice d prod + getFasciaPriceValue form.fasciaPrice +
        getInstallationPriceValue form.installationPrice = _
    rw [getFasciaPriceValue, getInstallationPriceValue,
      parseFloatOr0_of_none _ hf, parseFloatOr0_of_none _ hi, add_zero,
      add_zero]

/-- Witness for C10: an unparseable width yields area `0`, and an empty
fascia field contributes `0`. -/
theorem c10_parsers_total_witness :
    calculateSquareMeters "abc" "2" = 0 ∧ getFasciaPriceValue "" = 0 :=
  ⟨c10_parsers_total.2.1 "abc" "2" jsParseFloat_abc,
   (c10_parsers_total.2.2.2.1 "" jsParseFloat_empty).1⟩
